import Mathlib

/-!
Shallow embedding of `src/main.py` (a BIN lookup service): JSON values with
Python truthiness, the normalizer, the TTL cache, the two provider clients and
the per-token / per-request orchestration, together with theorems settling the
frozen claims about the specification.

Modelling conventions:
* Python/JSON values are `JsonVal` (numbers as `Int`; no claim involves float
  arithmetic).  `Python None` and JSON `null` coincide as `JsonVal.null`.
* Exceptions become `Except`: `PyExn.runtimeError` for `raise RuntimeError`,
  `PyExn.otherError` for everything else (HTTP errors, `AttributeError`).
* HTTP responses are `HttpResp` (status plus already-parsed JSON body).
* Strings are Lean strings; the digit class of the regex `\d` (compiled
  without `re.ASCII`) is the full Unicode decimal-digit category Nd,
  embedded as an explicit code-point range table (`isUnicodeDigit`).
* Wall-clock times are `Int` seconds.
-/

inductive JsonVal where
  | null
  | bool (b : Bool)
  | num (n : Int)
  | str (s : String)
  | arr (xs : List JsonVal)
  | obj (fields : List (String × JsonVal))
deriving Repr

mutual

/-- Decidable equality for `JsonVal` (nested recursion through lists). -/
def JsonVal.decEq : (a b : JsonVal) → Decidable (a = b)
  | .null, .null => .isTrue rfl
  | .bool a, .bool b =>
      if h : a = b then .isTrue (by rw [h]) else .isFalse (by simp [h])
  | .num a, .num b =>
      if h : a = b then .isTrue (by rw [h]) else .isFalse (by simp [h])
  | .str a, .str b =>
      if h : a = b then .isTrue (by rw [h]) else .isFalse (by simp [h])
  | .arr xs, .arr ys =>
      match JsonVal.decEqList xs ys with
      | .isTrue h => .isTrue (by rw [h])
      | .isFalse h => .isFalse (by simp [h])
  | .obj xs, .obj ys =>
      match JsonVal.decEqFields xs ys with
      | .isTrue h => .isTrue (by rw [h])
      | .isFalse h => .isFalse (by simp [h])
  | .null, .bool _ => .isFalse (by simp)
  | .null, .num _ => .isFalse (by simp)
  | .null, .str _ => .isFalse (by simp)
  | .null, .arr _ => .isFalse (by simp)
  | .null, .obj _ => .isFalse (by simp)
  | .bool _, .null => .isFalse (by simp)
  | .bool _, .num _ => .isFalse (by simp)
  | .bool _, .str _ => .isFalse (by simp)
  | .bool _, .arr _ => .isFalse (by simp)
  | .bool _, .obj _ => .isFalse (by simp)
  | .num _, .null => .isFalse (by simp)
  | .num _, .bool _ => .isFalse (by simp)
  | .num _, .str _ => .isFalse (by simp)
  | .num _, .arr _ => .isFalse (by simp)
  | .num _, .obj _ => .isFalse (by simp)
  | .str _, .null => .isFalse (by simp)
  | .str _, .bool _ => .isFalse (by simp)
  | .str _, .num _ => .isFalse (by simp)
  | .str _, .arr _ => .isFalse (by simp)
  | .str _, .obj _ => .isFalse (by simp)
  | .arr _, .null => .isFalse (by simp)
  | .arr _, .bool _ => .isFalse (by simp)
  | .arr _, .num _ => .isFalse (by simp)
  | .arr _, .str _ => .isFalse (by simp)
  | .arr _, .obj _ => .isFalse (by simp)
  | .obj _, .null => .isFalse (by simp)
  | .obj _, .bool _ => .isFalse (by simp)
  | .obj _, .num _ => .isFalse (by simp)
  | .obj _, .str _ => .isFalse (by simp)
  | .obj _, .arr _ => .isFalse (by simp)

def JsonVal.decEqList : (a b : List JsonVal) → Decidable (a = b)
  | [], [] => .isTrue rfl
  | x :: xs, y :: ys =>
      match JsonVal.decEq x y with
      | .isFalse h => .isFalse (by simp [h])
      | .isTrue h =>
          match JsonVal.decEqList xs ys with
          | .isTrue h2 => .isTrue (by rw [h, h2])
          | .isFalse h2 => .isFalse (by simp [h2])
  | [], _ :: _ => .isFalse (by simp)
  | _ :: _, [] => .isFalse (by simp)

def JsonVal.decEqFields : (a b : List (String × JsonVal)) → Decidable (a = b)
  | [], [] => .isTrue rfl
  | (k, v) :: xs, (k2, v2) :: ys =>
      if hk : k = k2 then
        match JsonVal.decEq v v2 with
        | .isFalse h => .isFalse (by simp [h])
        | .isTrue h =>
            match JsonVal.decEqFields xs ys with
            | .isTrue h2 => .isTrue (by rw [hk, h, h2])
            | .isFalse h2 => .isFalse (by simp [h2])
      else .isFalse (by simp [hk])
  | [], _ :: _ => .isFalse (by simp)
  | _ :: _, [] => .isFalse (by simp)

end

instance : DecidableEq JsonVal := JsonVal.decEq

deriving instance DecidableEq for Except

/-- Python truthiness of a JSON value (`if raw:`). -/
def truthy : JsonVal → Bool
  | .null => false
  | .bool b => b
  | .num n => n != 0
  | .str s => s ≠ ""
  | .arr xs => ¬ xs.isEmpty
  | .obj fs => ¬ fs.isEmpty

/-- Python `d.get(k)` on a dict, with default `None`. -/
def objGet (fs : List (String × JsonVal)) (k : String) : JsonVal :=
  match fs.find? (fun e => e.1 == k) with
  | some e => e.2
  | none => .null

/-- Python `k in d` on a dict. -/
def containsKey (fs : List (String × JsonVal)) (k : String) : Bool :=
  (fs.find? (fun e => e.1 == k)).isSome

/-- Python `a or b` restricted to JSON values. -/
def pyOr (a b : JsonVal) : JsonVal := if truthy a then a else b

/-- The fully-shaped record built by `normalize_binlist_response`:
`{"scheme": _, "brand": _, "type": _, "prepaid": _, "bank": {"name": _, "url": _},
"country": {"name": _, "alpha2": _}, "number": {...}}`.  The `number` component
is `none` when the source leaves `out["number"]` as the empty dict. -/
structure IssuerOut where
  scheme : JsonVal
  brand : JsonVal
  type : JsonVal
  prepaid : JsonVal
  bank_name : JsonVal
  bank_url : JsonVal
  country_name : JsonVal
  country_alpha2 : JsonVal
  number : Option (JsonVal × JsonVal)
deriving Repr, DecidableEq

/-- Source lines 56-60: `bank = raw.get("bank") or {}; if isinstance(bank, str): bank = {"name": bank}`
followed by `bank.get("name") or None` and `bank.get("url") or None`.
A truthy value that is neither a string nor a dict raises `AttributeError`. -/
def bankFields : JsonVal → Except String (JsonVal × JsonVal)
  | .str s => .ok (pyOr (.str s) .null, .null)
  | .obj fs => .ok (pyOr (objGet fs "name") .null, pyOr (objGet fs "url") .null)
  | _ => .error "AttributeError"

/-- Source lines 61-62: `country = raw.get("country") or {}` followed by `country.get("name") or None`
and `country.get("alpha2") or country.get("alpha") or None`. -/
def countryFields : JsonVal → Except String (JsonVal × JsonVal)
  | .obj fs =>
      .ok (pyOr (objGet fs "name") .null,
        pyOr (objGet fs "alpha2") (pyOr (objGet fs "alpha") .null))
  | _ => .error "AttributeError"

/-- Source lines 64-67: `out["number"]` is populated only when `"number" in raw` and the value is a dict
(`length` and `luhn` via plain `.get`, no `or None`). -/
def numberFields (fs : List (String × JsonVal)) : Option (JsonVal × JsonVal) :=
  if containsKey fs "number" then
    match objGet fs "number" with
    | .obj nfs => some (objGet nfs "length", objGet nfs "luhn")
    | _ => none
  else none

/-- The function `normalize_binlist_response(raw)` from `src/main.py` lines 46-68.
`Except.error` models a raised `AttributeError` (calling `.get` on a value
without that method); `.ok none` is the `if not raw: return None` early exit. -/
def normalize_binlist_response : JsonVal → Except String (Option IssuerOut)
  | .obj fs =>
      if truthy (.obj fs) = false then .ok none
      else
        match bankFields (pyOr (objGet fs "bank") (.obj [])) with
        | .error e => .error e
        | .ok bk =>
            match countryFields (pyOr (objGet fs "country") (.obj [])) with
            | .error e => .error e
            | .ok ct =>
                .ok (some ⟨pyOr (objGet fs "scheme") (pyOr (objGet fs "brand") .null),
                  pyOr (objGet fs "brand") (pyOr (objGet fs "scheme") .null),
                  pyOr (objGet fs "type") .null,
                  (if containsKey fs "prepaid" then objGet fs "prepaid" else .null),
                  bk.1, bk.2, ct.1, ct.2, numberFields fs⟩)
  | raw => if truthy raw = false then .ok none else .error "AttributeError"

/-! ## The validator: `BIN_RE = re.compile(r"^\d{6,8}$")`, used via `BIN_RE.match`.

CPython semantics: `$` matches at the end of the string or just before one
newline at the end, so the compiled pattern accepts a block of 6 to 8 digits
optionally followed by a single trailing newline.  The pattern is compiled
without `re.ASCII`, so `\d` matches every Unicode decimal digit (category
Nd), not only ASCII `0-9`. -/

/-- The closed code-point ranges of the Unicode decimal-digit category Nd
(Unicode 14.0, CPython's `unicodedata` table): exactly the characters
matched by `\d` without `re.ASCII`. -/
def ndRanges : List (Nat × Nat) :=
  [(0x30, 0x39), (0x660, 0x669), (0x6F0, 0x6F9), (0x7C0, 0x7C9),
   (0x966, 0x96F), (0x9E6, 0x9EF), (0xA66, 0xA6F), (0xAE6, 0xAEF),
   (0xB66, 0xB6F), (0xBE6, 0xBEF), (0xC66, 0xC6F), (0xCE6, 0xCEF),
   (0xD66, 0xD6F), (0xDE6, 0xDEF), (0xE50, 0xE59), (0xED0, 0xED9),
   (0xF20, 0xF29), (0x1040, 0x1049), (0x1090, 0x1099), (0x17E0, 0x17E9),
   (0x1810, 0x1819), (0x1946, 0x194F), (0x19D0, 0x19D9), (0x1A80, 0x1A89),
   (0x1A90, 0x1A99), (0x1B50, 0x1B59), (0x1BB0, 0x1BB9), (0x1C40, 0x1C49),
   (0x1C50, 0x1C59), (0xA620, 0xA629), (0xA8D0, 0xA8D9), (0xA900, 0xA909),
   (0xA9D0, 0xA9D9), (0xA9F0, 0xA9F9), (0xAA50, 0xAA59), (0xABF0, 0xABF9),
   (0xFF10, 0xFF19), (0x104A0, 0x104A9), (0x10D30, 0x10D39), (0x11066, 0x1106F),
   (0x110F0, 0x110F9), (0x11136, 0x1113F), (0x111D0, 0x111D9), (0x112F0, 0x112F9),
   (0x11450, 0x11459), (0x114D0, 0x114D9), (0x11650, 0x11659), (0x116C0, 0x116C9),
   (0x11730, 0x11739), (0x118E0, 0x118E9), (0x11950, 0x11959), (0x11C50, 0x11C59),
   (0x11D50, 0x11D59), (0x11DA0, 0x11DA9), (0x16A60, 0x16A69), (0x16AC0, 0x16AC9),
   (0x16B50, 0x16B59), (0x1D7CE, 0x1D7FF), (0x1E140, 0x1E149), (0x1E2F0, 0x1E2F9),
   (0x1E950, 0x1E959), (0x1FBF0, 0x1FBF9)]

/-- The character class `\d` of the source regex: any Unicode decimal digit. -/
def isUnicodeDigit (c : Char) : Bool :=
  ndRanges.any (fun r => decide (r.1 ≤ c.toNat) && decide (c.toNat ≤ r.2))

/-- The pattern matches consuming exactly `k` digits. -/
def matchAt (cs : List Char) (k : Nat) : Bool :=
  decide (k ≤ cs.length) && (cs.take k).all isUnicodeDigit &&
    (decide (cs.drop k = []) || decide (cs.drop k = [Char.ofNat 10]))

/-- Truthiness of `BIN_RE.match(s)` (`src/main.py` lines 24 and 145). -/
def BIN_RE_match (s : String) : Bool :=
  matchAt s.data 6 || matchAt s.data 7 || matchAt s.data 8

/-! ## The cache (`src/main.py` lines 25-44). -/

def CACHE_TTL : Int := 24 * 60 * 60

/-- The store `_cache`: a Python dict keyed by BIN string holding `(timestamp, data)`
pairs; modelled as an association list with at most one entry per key. -/
abbrev Cache := List (String × Int × Option IssuerOut)

def lookupEntry (c : Cache) (k : String) : Option (Int × Option IssuerOut) :=
  match c.find? (fun e => e.1 == k) with
  | some e => some e.2
  | none => none

/-- Python `del _cache[k]`. -/
def eraseKey (c : Cache) (k : String) : Cache := c.filter (fun e => !(e.1 == k))

/-- Source `get_cached(bin_str)` (lines 31-40), also returning the updated store:
miss on absent key; expired entries (`now - ts > CACHE_TTL`) are deleted and
reported as a miss; otherwise the stored data is returned unchanged. -/
def get_cached (now : Int) (c : Cache) (k : String) : Option IssuerOut × Cache :=
  match lookupEntry c k with
  | none => (none, c)
  | some (ts, data) =>
      if now - ts > CACHE_TTL then (none, eraseKey c k) else (data, c)

/-- Source `set_cache(bin_str, data)` (lines 42-44): insert or overwrite with the
current timestamp. -/
def set_cache (now : Int) (c : Cache) (k : String) (v : Option IssuerOut) : Cache :=
  (k, now, v) :: eraseKey c k

/-! ## Provider clients (`src/main.py` lines 70-107). -/

/-- An upstream HTTP response with an already-parsed JSON body. -/
structure HttpResp where
  status : Nat
  body : JsonVal

/-- A raised Python exception, split the way the orchestrator's handlers
split them: `RuntimeError` versus everything else. -/
inductive PyExn where
  | runtimeError (msg : String)
  | otherError (msg : String)
deriving Repr, DecidableEq

/-- Source `lookup_bin_binlist` (lines 70-82): 200 → body, 404 → `None`,
429 → `RuntimeError`, other 4xx/5xx → `raise_for_status`, any remaining
status falls off the end of the function returning `None`. -/
def lookup_bin_binlist (r : HttpResp) : Except PyExn JsonVal :=
  if r.status = 200 then .ok r.body
  else if r.status = 404 then .ok .null
  else if r.status = 429 then .error (.runtimeError "binlist_rate_limited")
  else if 400 ≤ r.status ∧ r.status < 600 then .error (.otherError "HTTPError")
  else .ok .null

/-- Source `lookup_bin_apininjas` (lines 84-107): on 200 a list body is replaced by
its first element, then the ApiNinjas shape is rebuilt with binlist-like keys
via `.get`; `.get` on a non-dict raises `AttributeError`. -/
def lookup_bin_apininjas (r : HttpResp) : Except PyExn JsonVal :=
  if r.status = 200 then
    let data :=
      match r.body with
      | .arr (x :: _) => x
      | other => other
    match data with
    | .obj fs =>
        .ok (.obj [("scheme", pyOr (objGet fs "scheme")
            (pyOr (objGet fs "brand") (objGet fs "type"))),
          ("brand", pyOr (objGet fs "brand") (objGet fs "scheme")),
          ("type", objGet fs "type"),
          ("bank", .obj [("name", pyOr (objGet fs "bank")
            (pyOr (objGet fs "issuer") (objGet fs "brand")))]),
          ("country", .obj [("name", objGet fs "country"),
            ("alpha2", objGet fs "country_code")])])
    | _ => .error (.otherError "AttributeError")
  else if r.status = 404 then .ok .null
  else if r.status = 429 then .error (.runtimeError "api_ninjas_rate_limited")
  else if 400 ≤ r.status ∧ r.status < 600 then .error (.otherError "HTTPError")
  else .ok .null

/-! ## The orchestrator (`src/main.py` lines 109-200). -/

/-- The environment of one request: what each provider would answer for each
token, and the optional fallback credential (`API_NINJAS_KEY`). -/
structure World where
  primary : String → HttpResp
  fallback : String → HttpResp
  apiKey : Option String

/-- Truthiness of `API_NINJAS_KEY` (`if API_NINJAS_KEY:`): the credential is present and non-empty. -/
def fallbackConfigured (w : World) : Bool :=
  match w.apiKey with
  | some k => k ≠ ""
  | none => false

/-- The per-token entry written into `results` (lines 146-198). -/
inductive TokenResult where
  | invalidBin
  | cachedHit (data : IssuerOut)
  | resolved (data : Option IssuerOut) (source : String)
  | notFound
  | rateLimited (msg : String)
  | upstreamError (msg : String)
  | notFoundOrUpstreamError
deriving Repr, DecidableEq

/-- Observable effect of processing one token: its result, the cache left
behind, and the providers invoked in order (`"binlist"` / `"api_ninjas"`). -/
structure StepOut where
  result : TokenResult
  cache : Cache
  calls : List String
deriving Repr, DecidableEq

/-- Lines 156-170: the primary attempt.  `some` means the token was resolved
and cached there; `none` means fall through to the fallback section (404/other
falsy body, or any exception from the request or from normalization). -/
def primaryPhase (w : World) (now : Int) (c1 : Cache) (tok : String) :
    Option (TokenResult × Cache) :=
  match lookup_bin_binlist (w.primary tok) with
  | .error _ => none
  | .ok raw =>
      if truthy raw then
        match normalize_binlist_response raw with
        | .error _ => none
        | .ok v => some (.resolved v "binlist", set_cache now c1 tok v)
      else none

/-- Lines 172-198: the fallback section, reached when the primary attempt did
not resolve the token. -/
def fallbackPhase (w : World) (now : Int) (c1 : Cache) (tok : String) : StepOut :=
  if fallbackConfigured w then
    match lookup_bin_apininjas (w.fallback tok) with
    | .ok raw2 =>
        if truthy raw2 then
          match normalize_binlist_response raw2 with
          | .ok v2 => ⟨.resolved v2 "api_ninjas", set_cache now c1 tok v2, ["api_ninjas"]⟩
          | .error e => ⟨.upstreamError e, c1, ["api_ninjas"]⟩
        else ⟨.notFound, c1, ["api_ninjas"]⟩
    | .error (.runtimeError m) => ⟨.rateLimited m, c1, ["api_ninjas"]⟩
    | .error (.otherError m) => ⟨.upstreamError m, c1, ["api_ninjas"]⟩
  else ⟨.notFoundOrUpstreamError, c1, []⟩

/-- The provider chain run on a cache miss (primary, then the fallback
section), starting from the post-probe cache `c1`. -/
def missStep (w : World) (now : Int) (c1 : Cache) (tok : String) : StepOut :=
  match primaryPhase w now c1 tok with
  | some rc => ⟨rc.1, rc.2, ["binlist"]⟩
  | none =>
      let fb := fallbackPhase w now c1 tok
      ⟨fb.result, fb.cache, "binlist" :: fb.calls⟩

/-- Lines 144-198: validation, cache probe, primary, fallback for one token. -/
def processToken (w : World) (now : Int) (c : Cache) (tok : String) : StepOut :=
  if BIN_RE_match tok then
    match get_cached now c tok with
    | (some data, c1) => ⟨.cachedHit data, c1, []⟩
    | (none, c1) => missStep w now c1 tok
  else ⟨.invalidBin, c, []⟩

/-- Lines 143-198: the per-token loop, threading the cache. -/
def processBins (w : World) (now : Int) :
    List String → Cache → List (String × TokenResult) × Cache × List String
  | [], c => ([], c, [])
  | t :: ts, c =>
      let s := processToken w now c t
      let rest := processBins w now ts s.cache
      ((t, s.result) :: rest.1, rest.2.1, s.calls ++ rest.2.2)

/-- Python `str.strip()` whitespace (ASCII portion). -/
def isPySpace (c : Char) : Bool :=
  c == ' ' || c == Char.ofNat 9 || c == Char.ofNat 10 || c == Char.ofNat 13 ||
    c == Char.ofNat 11 || c == Char.ofNat 12

def pyStrip (s : String) : String :=
  ⟨((s.data.dropWhile isPySpace).reverse.dropWhile isPySpace).reverse⟩

/-- Python `str.split(",")` with an explicit separator (Python keeps empty pieces;
`"".split(",") == [""]`). -/
def splitCommaAux (cur : List Char) : List Char → List (List Char)
  | [] => [cur.reverse]
  | ch :: rest =>
      if ch = ',' then cur.reverse :: splitCommaAux [] rest
      else splitCommaAux (ch :: cur) rest

def pySplitComma (s : String) : List String :=
  (splitCommaAux [] s.data).map (fun cs => ⟨cs⟩)

/-- Lines 125-130: split every parameter on commas, strip, drop empties. -/
def flattenBins (binsParam : List String) : List String :=
  (binsParam.map (fun b => ((pySplitComma b).map pyStrip).filter (fun v => !(v == "")))).flatten

def dedupAux (seen : List String) : List String → List String
  | [] => []
  | x :: xs => if x ∈ seen then dedupAux seen xs else x :: dedupAux (x :: seen) xs

/-- Lines 132-138: deduplicate preserving first-seen order. -/
def dedup (l : List String) : List String := dedupAux [] l

/-- The HTTP-level response of `root`. -/
inductive RootResult where
  | errorResp (err : String)
  | results (rs : List (String × TokenResult))

/-- Observable outcome of one whole request. -/
structure RootOut where
  response : RootResult
  status : Nat
  cache : Cache
  calls : List String

/-- Source `root()` (lines 109-200): parameter presence check, flatten, dedup, the
100-token cap, then the per-token loop. -/
def root (w : World) (now : Int) (c : Cache) (binsParam : List String) : RootOut :=
  if binsParam = [] then ⟨.errorResp "missing_parameter", 400, c, []⟩
  else if (dedup (flattenBins binsParam)).length > 100 then
    ⟨.errorResp "too_many_bins", 400, c, []⟩
  else
    ⟨.results (processBins w now (dedup (flattenBins binsParam)) c).1, 200,
      (processBins w now (dedup (flattenBins binsParam)) c).2.1,
      (processBins w now (dedup (flattenBins binsParam)) c).2.2⟩

/-! ## Theorems -/

lemma matchAt_iff (cs : List Char) (k : Nat) :
    matchAt cs k = true ↔
      k ≤ cs.length ∧ (cs.take k).all isUnicodeDigit = true ∧
        (cs.drop k = [] ∨ cs.drop k = [Char.ofNat 10]) := by
  simp [matchAt]
  tauto

/-- C2 (counterexample): the validator accepts `"123456\n"`, a string that
contains a non-digit character and trailing whitespace (CPython's `$` also
matches just before one trailing newline), and it accepts six Arabic-Indic
digits U+0660-U+0665, none of which is an ASCII digit (`\d` compiled without
`re.ASCII` matches every Unicode decimal digit) — so both "consists of
exactly 6 to 8 ASCII digits" and "rejects every string containing any
non-digit character" are false of the code. -/
theorem C2_counterexample :
    BIN_RE_match "123456\n" = true ∧
    Char.ofNat 10 ∈ "123456\n".data ∧ Char.isDigit (Char.ofNat 10) = false ∧
    BIN_RE_match ⟨[Char.ofNat 0x660, Char.ofNat 0x661, Char.ofNat 0x662,
      Char.ofNat 0x663, Char.ofNat 0x664, Char.ofNat 0x665]⟩ = true ∧
    ([Char.ofNat 0x660, Char.ofNat 0x661, Char.ofNat 0x662, Char.ofNat 0x663,
      Char.ofNat 0x664, Char.ofNat 0x665].all Char.isDigit) = false := by
  decide

/-- C2 (amended): the validator accepts a token iff it consists of exactly 6
to 8 Unicode decimal digits (category Nd — ASCII or not), optionally followed
by one trailing newline character. -/
theorem C2_amended (s : String) :
    BIN_RE_match s = true ↔
      ((6 ≤ s.data.length ∧ s.data.length ≤ 8 ∧ s.data.all isUnicodeDigit = true) ∨
        (∃ ds : List Char, s.data = ds ++ [Char.ofNat 10] ∧ 6 ≤ ds.length ∧
          ds.length ≤ 8 ∧ ds.all isUnicodeDigit = true)) := by
  constructor
  · intro h
    have h3 : matchAt s.data 6 = true ∨ matchAt s.data 7 = true ∨ matchAt s.data 8 = true := by
      simpa [BIN_RE_match, Bool.or_eq_true, or_assoc] using h
    have main : ∀ k, 6 ≤ k → k ≤ 8 → matchAt s.data k = true →
        ((6 ≤ s.data.length ∧ s.data.length ≤ 8 ∧ s.data.all isUnicodeDigit = true) ∨
          (∃ ds : List Char, s.data = ds ++ [Char.ofNat 10] ∧ 6 ≤ ds.length ∧
            ds.length ≤ 8 ∧ ds.all isUnicodeDigit = true)) := by
      intro k hk6 hk8 hm
      rw [matchAt_iff] at hm
      obtain ⟨hlen, hdig, hrest⟩ := hm
      rcases hrest with hnil | hnl
      · left
        have hle : s.data.length ≤ k := List.drop_eq_nil_iff.mp hnil
        have heq : s.data.length = k := le_antisymm hle hlen
        refine ⟨by omega, by omega, ?_⟩
        rwa [List.take_of_length_le hle] at hdig
      · right
        refine ⟨s.data.take k, ?_, ?_, ?_, hdig⟩
        · conv_lhs => rw [← List.take_append_drop k s.data]
          rw [hnl]
        · rw [List.length_take]; omega
        · rw [List.length_take]; omega
    rcases h3 with h1 | h1 | h1
    · exact main 6 (by omega) (by omega) h1
    · exact main 7 (by omega) (by omega) h1
    · exact main 8 (by omega) (by omega) h1
  · intro h
    rcases h with ⟨h6, h8, hdig⟩ | ⟨ds, heq, h6, h8, hdig⟩
    · have hm : matchAt s.data s.data.length = true := by
        rw [matchAt_iff]
        exact ⟨le_refl _,
          by rwa [List.take_of_length_le (le_refl _)],
          Or.inl (List.drop_eq_nil_of_le (le_refl _))⟩
      have hc : s.data.length = 6 ∨ s.data.length = 7 ∨ s.data.length = 8 := by omega
      rcases hc with e | e | e <;> rw [e] at hm <;> simp [BIN_RE_match, hm]
    · have hm : matchAt s.data ds.length = true := by
        rw [matchAt_iff]
        refine ⟨?_, ?_, Or.inr ?_⟩
        · rw [heq, List.length_append]; simp
        · rw [heq, List.take_left]; exact hdig
        · rw [heq, List.drop_left]
      have hc : ds.length = 6 ∨ ds.length = 7 ∨ ds.length = 8 := by omega
      rcases hc with e | e | e <;> rw [e] at hm <;> simp [BIN_RE_match, hm]

lemma lookupEntry_eraseKey_self (c : Cache) (k : String) :
    lookupEntry (eraseKey c k) k = none := by
  have hfind : List.find? (fun e => e.1 == k) (List.filter (fun e => !(e.1 == k)) c) = none := by
    rw [List.find?_eq_none]
    intro x hx
    rw [List.mem_filter] at hx
    simpa using hx.2
  unfold lookupEntry eraseKey
  rw [hfind]

/-- C5: `get_cached` returns absent on a never-written key; on an entry older
than the TTL it returns absent and deletes the entry, and the deletion is
idempotent — a second access at any time finds nothing, returns absent, and
leaves the store exactly as the first access left it. -/
theorem C5_cache_get (now now2 : Int) (c : Cache) (k : String) :
    (lookupEntry c k = none → get_cached now c k = (none, c)) ∧
    (∀ ts data, lookupEntry c k = some (ts, data) → now - ts > CACHE_TTL →
      get_cached now c k = (none, eraseKey c k) ∧
      lookupEntry (eraseKey c k) k = none ∧
      get_cached now2 (eraseKey c k) k = (none, eraseKey c k)) := by
  refine ⟨fun h => ?_, fun ts data h hexp => ?_⟩
  · simp [get_cached, h]
  · refine ⟨?_, lookupEntry_eraseKey_self c k, ?_⟩
    · simp [get_cached, h, hexp]
    · simp [get_cached, lookupEntry_eraseKey_self]

/-- Shapes of a `bank` value on which the source's `bank.get` calls cannot
raise: strings and dicts, or any falsy value (replaced by `{}` before use). -/
def bankShapeOk : JsonVal → Bool
  | .str _ => true
  | .obj _ => true
  | v => !(truthy v)

/-- Shapes of a `country` value on which `country.get` cannot raise. -/
def countryShapeOk : JsonVal → Bool
  | .obj _ => true
  | v => !(truthy v)

lemma bankFields_pyOr_ok (v : JsonVal) (h : bankShapeOk v = true) :
    ∃ p, bankFields (pyOr v (.obj [])) = .ok p := by
  unfold pyOr
  by_cases ht : truthy v = true
  · rw [if_pos ht]
    cases v with
    | str s => exact ⟨_, rfl⟩
    | obj fs2 => exact ⟨_, rfl⟩
    | null => simp [truthy] at ht
    | bool b => exact absurd h (by simp [bankShapeOk, ht])
    | num n => exact absurd h (by simp [bankShapeOk, ht])
    | arr xs => exact absurd h (by simp [bankShapeOk, ht])
  · rw [if_neg ht]
    exact ⟨_, rfl⟩

lemma countryFields_pyOr_ok (v : JsonVal) (h : countryShapeOk v = true) :
    ∃ p, countryFields (pyOr v (.obj [])) = .ok p := by
  unfold pyOr
  by_cases ht : truthy v = true
  · rw [if_pos ht]
    cases v with
    | obj fs2 => exact ⟨_, rfl⟩
    | null => simp [truthy] at ht
    | bool b => exact absurd h (by simp [countryShapeOk, ht])
    | num n => exact absurd h (by simp [countryShapeOk, ht])
    | str s => exact absurd h (by simp [countryShapeOk, ht])
    | arr xs => exact absurd h (by simp [countryShapeOk, ht])
  · rw [if_neg ht]
    exact ⟨_, rfl⟩

/-- C3 (counterexample): the normalizer is not record-valued on the empty map
(`if not raw: return None` yields the absent value, not a fully-shaped
record), and it raises `AttributeError` on a map whose `bank` field is a
truthy non-string/non-dict value — so "for every input map it returns a
fully-shaped IssuerRecord and never raises" is false. -/
theorem C3_counterexample :
    normalize_binlist_response (.obj []) = .ok none ∧
    normalize_binlist_response (.obj [("bank", .num 5)]) = .error "AttributeError" := by
  decide

/-- C3 (amended): every falsy input (in particular the empty map) yields the
absent value rather than a record or an error; every non-empty input map
whose `bank` field is absent, falsy, a string or an object and whose
`country` field is absent, falsy or an object yields a fully-shaped
`IssuerOut` without raising. -/
theorem C3_amended :
    (∀ raw, truthy raw = false → normalize_binlist_response raw = .ok none) ∧
    (∀ fs : List (String × JsonVal), fs ≠ [] →
      bankShapeOk (objGet fs "bank") = true →
      countryShapeOk (objGet fs "country") = true →
      ∃ rec, normalize_binlist_response (.obj fs) = .ok (some rec)) := by
  constructor
  · intro raw h
    cases raw <;> simp [normalize_binlist_response, h]
  · intro fs hne hb hc
    have ht : truthy (JsonVal.obj fs) = true := by
      simpa [truthy, List.isEmpty_iff] using hne
    obtain ⟨bp, hbp⟩ := bankFields_pyOr_ok _ hb
    obtain ⟨cp, hcp⟩ := countryFields_pyOr_ok _ hc
    refine ⟨⟨pyOr (objGet fs "scheme") (pyOr (objGet fs "brand") .null),
      pyOr (objGet fs "brand") (pyOr (objGet fs "scheme") .null),
      pyOr (objGet fs "type") .null,
      (if containsKey fs "prepaid" then objGet fs "prepaid" else .null),
      bp.1, bp.2, cp.1, cp.2, numberFields fs⟩, ?_⟩
    simp [normalize_binlist_response, ht, hbp, hcp]

/-- C3 witness: the amended claim evaluated at `null` and at the map
`{"bank": "X"}` (a bank-as-string input). -/
theorem C3_amended_witness :
    normalize_binlist_response .null = .ok none ∧
    ∃ rec, normalize_binlist_response (.obj [("bank", .str "X")]) = .ok (some rec) := by
  exact ⟨C3_amended.1 .null rfl,
    C3_amended.2 [("bank", .str "X")] (by decide) (by decide) (by decide)⟩

lemma pyOr_obj_empty (xs : List (String × JsonVal)) :
    pyOr (.obj xs) (.obj []) = .obj xs := by
  cases xs with
  | nil => rfl
  | cons a l => rfl

/-- Inversion of a successful normalization of an object. -/
lemma normalize_obj_ok_inv (fs : List (String × JsonVal)) (rec : IssuerOut)
    (h : normalize_binlist_response (.obj fs) = .ok (some rec)) :
    ∃ bp cp, bankFields (pyOr (objGet fs "bank") (.obj [])) = .ok bp ∧
      countryFields (pyOr (objGet fs "country") (.obj [])) = .ok cp ∧
      rec = ⟨pyOr (objGet fs "scheme") (pyOr (objGet fs "brand") .null),
        pyOr (objGet fs "brand") (pyOr (objGet fs "scheme") .null),
        pyOr (objGet fs "type") .null,
        (if containsKey fs "prepaid" then objGet fs "prepaid" else .null),
        bp.1, bp.2, cp.1, cp.2, numberFields fs⟩ := by
  simp only [normalize_binlist_response] at h
  by_cases ht : truthy (JsonVal.obj fs) = false
  · rw [if_pos ht] at h
    exact absurd h (by simp)
  · rw [if_neg ht] at h
    cases hbp : bankFields (pyOr (objGet fs "bank") (.obj [])) with
    | error e =>
        rw [hbp] at h
        exact absurd h (by simp)
    | ok bp =>
        rw [hbp] at h
        cases hcp : countryFields (pyOr (objGet fs "country") (.obj [])) with
        | error e =>
            rw [hcp] at h
            exact absurd h (by simp)
        | ok cp =>
            rw [hcp] at h
            simp only [Except.ok.injEq, Option.some.injEq] at h
            exact ⟨bp, cp, rfl, rfl, h.symm⟩

/-- C7 (counterexample): the mapping policy is not "first present wins" —
with `scheme` present but empty and `brand` present, the normalizer fills
`scheme` from `brand` (Python `or` tests truthiness, not presence). -/
theorem C7_counterexample :
    normalize_binlist_response (.obj [("scheme", .str ""), ("brand", .str "visa")]) =
      .ok (some ⟨.str "visa", .str "visa", .null, .null, .null, .null, .null, .null, none⟩) := by
  decide

/-- C7 (amended): the field-mapping policy is first-TRUTHY-wins (a present
but empty/null/false/zero value is skipped): scheme is raw.scheme if truthy
else raw.brand; brand is raw.brand if truthy else raw.scheme; a bank given as
a non-empty plain string becomes the bank name with no URL; the country
alpha2 code is taken from a truthy "alpha2" key, else from "alpha". -/
theorem C7_amended (fs : List (String × JsonVal)) (rec : IssuerOut)
    (h : normalize_binlist_response (.obj fs) = .ok (some rec)) :
    (truthy (objGet fs "scheme") = true → rec.scheme = objGet fs "scheme") ∧
    (truthy (objGet fs "scheme") = false → truthy (objGet fs "brand") = true →
      rec.scheme = objGet fs "brand") ∧
    (truthy (objGet fs "brand") = true → rec.brand = objGet fs "brand") ∧
    (truthy (objGet fs "brand") = false → truthy (objGet fs "scheme") = true →
      rec.brand = objGet fs "scheme") ∧
    (∀ s, objGet fs "bank" = .str s → s ≠ "" →
      rec.bank_name = .str s ∧ rec.bank_url = .null) ∧
    (∀ cfs, objGet fs "country" = .obj cfs →
      (truthy (objGet cfs "alpha2") = true → rec.country_alpha2 = objGet cfs "alpha2") ∧
      (truthy (objGet cfs "alpha2") = false → truthy (objGet cfs "alpha") = true →
        rec.country_alpha2 = objGet cfs "alpha")) := by
  obtain ⟨bp, cp, hbp, hcp, hrec⟩ := normalize_obj_ok_inv fs rec h
  subst hrec
  refine ⟨?_, ?_, ?_, ?_, ?_, ?_⟩
  · intro hs
    simp [pyOr, hs]
  · intro hs hb
    simp [pyOr, hs, hb]
  · intro hb
    simp [pyOr, hb]
  · intro hb hs
    simp [pyOr, hb, hs]
  · intro s hbank hs
    rw [hbank] at hbp
    have hps : pyOr (.str s) (.obj []) = .str s := by
      simp [pyOr, truthy, hs]
    rw [hps] at hbp
    have hb2 : bp = (pyOr (.str s) .null, .null) := by
      simpa [bankFields] using hbp.symm
    subst hb2
    constructor
    · simp [pyOr, truthy, hs]
    · rfl
  · intro cfs hcountry
    rw [hcountry, pyOr_obj_empty] at hcp
    have hc2 : cp = (pyOr (objGet cfs "name") .null,
        pyOr (objGet cfs "alpha2") (pyOr (objGet cfs "alpha") .null)) := by
      simpa [countryFields] using hcp.symm
    subst hc2
    constructor
    · intro ha
      simp [pyOr, ha]
    · intro ha ha2
      simp [pyOr, ha, ha2]

/-- C7 witness: a concrete map with truthy scheme, bank as a plain string and
the country code under the `"alpha"` key. -/
theorem C7_amended_witness :
    ∃ rec, normalize_binlist_response (.obj [("scheme", .str "visa"),
        ("bank", .str "B"), ("country", .obj [("alpha", .str "US")])]) = .ok (some rec) ∧
      rec.scheme = .str "visa" ∧ rec.bank_name = .str "B" ∧ rec.bank_url = .null ∧
      rec.country_alpha2 = .str "US" := by
  refine ⟨⟨.str "visa", .str "visa", .null, .null, .str "B", .null, .null, .str "US", none⟩,
    by decide, ?_⟩
  have h := C7_amended [("scheme", .str "visa"), ("bank", .str "B"),
    ("country", .obj [("alpha", .str "US")])]
    ⟨.str "visa", .str "visa", .null, .null, .str "B", .null, .null, .str "US", none⟩
    (by decide)
  refine ⟨h.1 (by decide), ?_, ?_, ?_⟩
  · exact (h.2.2.2.2.1 "B" (by decide) (by decide)).1
  · exact (h.2.2.2.2.1 "B" (by decide) (by decide)).2
  · exact (h.2.2.2.2.2 [("alpha", .str "US")] (by decide)).2 (by decide) (by decide)

/-- C5 witness: a concrete expired entry (written at time 0, accessed at time
86401 and again at 99999). -/
theorem C5_cache_get_witness :
    get_cached 86401 [("457173", 0,
        some ⟨.null, .null, .null, .null, .null, .null, .null, .null, none⟩)] "457173" =
      (none, []) ∧
    get_cached 99999 ([] : Cache) "457173" = (none, []) := by
  have h := (C5_cache_get 86401 99999
    [("457173", 0, some ⟨.null, .null, .null, .null, .null, .null, .null, .null, none⟩)]
    "457173").2 0
    (some ⟨.null, .null, .null, .null, .null, .null, .null, .null, none⟩)
    rfl (by decide)
  exact ⟨h.1, h.2.2⟩

/-! ### Orchestrator step lemmas -/

lemma processToken_invalid (w : World) (now : Int) (c : Cache) (tok : String)
    (hv : BIN_RE_match tok = false) :
    processToken w now c tok = ⟨.invalidBin, c, []⟩ := by
  simp [processToken, hv]

lemma processToken_hit (w : World) (now : Int) (c : Cache) (tok : String)
    (hv : BIN_RE_match tok = true) (d : IssuerOut)
    (hh : (get_cached now c tok).1 = some d) :
    processToken w now c tok = ⟨.cachedHit d, (get_cached now c tok).2, []⟩ := by
  have he : get_cached now c tok = (some d, (get_cached now c tok).2) := by
    rw [← hh]
  unfold processToken
  rw [if_pos hv, he]

lemma processToken_miss (w : World) (now : Int) (c : Cache) (tok : String)
    (hv : BIN_RE_match tok = true)
    (hmiss : (get_cached now c tok).1 = none) :
    processToken w now c tok = missStep w now (get_cached now c tok).2 tok := by
  have he : get_cached now c tok = (none, (get_cached now c tok).2) := by
    rw [← hmiss]
  unfold processToken
  rw [if_pos hv, he]

lemma primaryPhase_none_of_status (w : World) (now : Int) (c1 : Cache) (tok : String)
    (hp : (w.primary tok).status ≠ 200) :
    primaryPhase w now c1 tok = none := by
  unfold primaryPhase lookup_bin_binlist
  rw [if_neg hp]
  by_cases h4 : (w.primary tok).status = 404
  · rw [if_pos h4]
    rfl
  · rw [if_neg h4]
    by_cases h9 : (w.primary tok).status = 429
    · rw [if_pos h9]
    · rw [if_neg h9]
      by_cases he : 400 ≤ (w.primary tok).status ∧ (w.primary tok).status < 600
      · rw [if_pos he]
      · rw [if_neg he]
        rfl

lemma primaryPhase_none_of_falsy (w : World) (now : Int) (c1 : Cache) (tok : String)
    (hs : (w.primary tok).status = 200) (hb : truthy (w.primary tok).body = false) :
    primaryPhase w now c1 tok = none := by
  simp [primaryPhase, lookup_bin_binlist, hs, hb]

lemma primaryPhase_found (w : World) (now : Int) (c1 : Cache) (tok : String)
    (raw : JsonVal) (v : Option IssuerOut)
    (hl : lookup_bin_binlist (w.primary tok) = .ok raw)
    (ht : truthy raw = true)
    (hn : normalize_binlist_response raw = .ok v) :
    primaryPhase w now c1 tok = some (.resolved v "binlist", set_cache now c1 tok v) := by
  unfold primaryPhase
  rw [hl]
  simp [ht, hn]

lemma fallbackPhase_not_configured (w : World) (now : Int) (c1 : Cache) (tok : String)
    (h : fallbackConfigured w = false) :
    fallbackPhase w now c1 tok = ⟨.notFoundOrUpstreamError, c1, []⟩ := by
  simp [fallbackPhase, h]

lemma fallbackPhase_calls (w : World) (now : Int) (c1 : Cache) (tok : String)
    (h : fallbackConfigured w = true) :
    (fallbackPhase w now c1 tok).calls = ["api_ninjas"] := by
  unfold fallbackPhase
  rw [if_pos h]
  cases hl : lookup_bin_apininjas (w.fallback tok) with
  | ok raw2 =>
      by_cases ht : truthy raw2 = true
      · cases hn : normalize_binlist_response raw2 <;> simp [ht, hn]
      · rw [Bool.not_eq_true] at ht
        simp [ht]
  | error e => cases e <;> simp

lemma lookup_apininjas_404 (r : HttpResp) (h4 : r.status = 404) :
    lookup_bin_apininjas r = .ok .null := by
  unfold lookup_bin_apininjas
  rw [if_neg (by simp [h4]), if_pos h4]

lemma fallbackPhase_404 (w : World) (now : Int) (c1 : Cache) (tok : String)
    (h : fallbackConfigured w = true) (h4 : (w.fallback tok).status = 404) :
    fallbackPhase w now c1 tok = ⟨.notFound, c1, ["api_ninjas"]⟩ := by
  unfold fallbackPhase
  rw [if_pos h, lookup_apininjas_404 _ h4]
  simp [truthy]

lemma fallbackPhase_found (w : World) (now : Int) (c1 : Cache) (tok : String)
    (raw2 : JsonVal) (v2 : Option IssuerOut)
    (hl : lookup_bin_apininjas (w.fallback tok) = .ok raw2)
    (ht : truthy raw2 = true)
    (hn : normalize_binlist_response raw2 = .ok v2)
    (h : fallbackConfigured w = true) :
    fallbackPhase w now c1 tok =
      ⟨.resolved v2 "api_ninjas", set_cache now c1 tok v2, ["api_ninjas"]⟩ := by
  unfold fallbackPhase
  rw [if_pos h, hl]
  simp [ht, hn]

lemma missStep_found (w : World) (now : Int) (c1 : Cache) (tok : String)
    (rc : TokenResult × Cache) (hp : primaryPhase w now c1 tok = some rc) :
    missStep w now c1 tok = ⟨rc.1, rc.2, ["binlist"]⟩ := by
  unfold missStep
  rw [hp]

lemma missStep_fallthrough (w : World) (now : Int) (c1 : Cache) (tok : String)
    (hp : primaryPhase w now c1 tok = none) :
    missStep w now c1 tok =
      ⟨(fallbackPhase w now c1 tok).result, (fallbackPhase w now c1 tok).cache,
        "binlist" :: (fallbackPhase w now c1 tok).calls⟩ := by
  unfold missStep
  rw [hp]

lemma fallbackPhase_rate (w : World) (now : Int) (c1 : Cache) (tok : String) (m : String)
    (h : fallbackConfigured w = true)
    (hl : lookup_bin_apininjas (w.fallback tok) = .error (.runtimeError m)) :
    fallbackPhase w now c1 tok = ⟨.rateLimited m, c1, ["api_ninjas"]⟩ := by
  unfold fallbackPhase
  rw [if_pos h, hl]

lemma fallbackPhase_err (w : World) (now : Int) (c1 : Cache) (tok : String) (m : String)
    (h : fallbackConfigured w = true)
    (hl : lookup_bin_apininjas (w.fallback tok) = .error (.otherError m)) :
    fallbackPhase w now c1 tok = ⟨.upstreamError m, c1, ["api_ninjas"]⟩ := by
  unfold fallbackPhase
  rw [if_pos h, hl]

lemma fallbackPhase_falsy (w : World) (now : Int) (c1 : Cache) (tok : String) (raw2 : JsonVal)
    (h : fallbackConfigured w = true)
    (hl : lookup_bin_apininjas (w.fallback tok) = .ok raw2)
    (htr : truthy raw2 = false) :
    fallbackPhase w now c1 tok = ⟨.notFound, c1, ["api_ninjas"]⟩ := by
  unfold fallbackPhase
  rw [if_pos h, hl]
  simp [htr]

lemma fallbackPhase_normerr (w : World) (now : Int) (c1 : Cache) (tok : String)
    (raw2 : JsonVal) (e : String)
    (h : fallbackConfigured w = true)
    (hl : lookup_bin_apininjas (w.fallback tok) = .ok raw2)
    (htr : truthy raw2 = true)
    (hn : normalize_binlist_response raw2 = .error e) :
    fallbackPhase w now c1 tok = ⟨.upstreamError e, c1, ["api_ninjas"]⟩ := by
  unfold fallbackPhase
  rw [if_pos h, hl]
  simp [htr, hn]

lemma primaryPhase_some_inv (w : World) (now : Int) (c1 : Cache) (tok : String)
    (rc : TokenResult × Cache) (hp : primaryPhase w now c1 tok = some rc) :
    ∃ raw v, lookup_bin_binlist (w.primary tok) = .ok raw ∧ truthy raw = true ∧
      normalize_binlist_response raw = .ok v ∧
      rc = (.resolved v "binlist", set_cache now c1 tok v) := by
  unfold primaryPhase at hp
  cases hl : lookup_bin_binlist (w.primary tok) with
  | error e =>
      rw [hl] at hp
      exact absurd hp (by simp)
  | ok raw =>
      simp only [hl] at hp
      by_cases htr : truthy raw = true
      · rw [if_pos htr] at hp
        cases hn : normalize_binlist_response raw with
        | error e =>
            rw [hn] at hp
            exact absurd hp (by simp)
        | ok v =>
            rw [hn] at hp
            simp only [Option.some.injEq] at hp
            exact ⟨raw, v, rfl, htr, hn, hp.symm⟩
      · rw [if_neg htr] at hp
        exact absurd hp (by simp)

lemma normalize_truthy_some (raw : JsonVal) (v : Option IssuerOut)
    (ht : truthy raw = true) (hn : normalize_binlist_response raw = .ok v) :
    ∃ rec, v = some rec := by
  cases raw with
  | obj fs =>
      simp only [normalize_binlist_response] at hn
      rw [if_neg (by simp [ht])] at hn
      cases hbp : bankFields (pyOr (objGet fs "bank") (.obj [])) with
      | error e =>
          rw [hbp] at hn
          exact absurd hn (by simp)
      | ok bp =>
          rw [hbp] at hn
          cases hcp : countryFields (pyOr (objGet fs "country") (.obj [])) with
          | error e =>
              rw [hcp] at hn
              exact absurd hn (by simp)
          | ok cp =>
              rw [hcp] at hn
              simp only [Except.ok.injEq] at hn
              exact ⟨_, hn.symm⟩
  | null => simp [truthy] at ht
  | bool b => simp [normalize_binlist_response, ht] at hn
  | num n => simp [normalize_binlist_response, ht] at hn
  | str s => simp [normalize_binlist_response, ht] at hn
  | arr xs => simp [normalize_binlist_response, ht] at hn

lemma lookupEntry_set_cache_self (now : Int) (c : Cache) (k : String) (v : Option IssuerOut) :
    lookupEntry (set_cache now c k v) k = some (now, v) := by
  unfold lookupEntry set_cache
  rw [List.find?_cons_of_pos _ (by simp)]

lemma processToken_after_set (w2 : World) (t0 t1 : Int) (c1 : Cache) (tok : String)
    (rec : IssuerOut) (hv : BIN_RE_match tok = true) (ht : t1 - t0 ≤ CACHE_TTL) :
    processToken w2 t1 (set_cache t0 c1 tok (some rec)) tok =
      ⟨.cachedHit rec, set_cache t0 c1 tok (some rec), []⟩ := by
  have hg : get_cached t1 (set_cache t0 c1 tok (some rec)) tok =
      (some rec, set_cache t0 c1 tok (some rec)) := by
    have hnot : ¬ (t1 - t0 > CACHE_TTL) := not_lt.mpr ht
    unfold get_cached
    rw [lookupEntry_set_cache_self]
    simp [hnot]
  unfold processToken
  rw [if_pos hv, hg]

/-- C6: when no fallback credential is configured and the primary provider
did not return Found (its status is not 200, so its outcome is NotFound,
RateLimited or Error), the per-token outcome is the combined
not-found-or-upstream-error kind; when a fallback is configured and both
providers return 404 the outcome is the clean NotFound kind; the two kinds
are distinct. -/
theorem C6_ambiguous_outcome (w w2 : World) (now : Int) (c c2 : Cache) (tok tok2 : String)
    (hv : BIN_RE_match tok = true)
    (hmiss : (get_cached now c tok).1 = none)
    (hnc : fallbackConfigured w = false)
    (hp : (w.primary tok).status ≠ 200) :
    (processToken w now c tok).result = .notFoundOrUpstreamError ∧
    (BIN_RE_match tok2 = true → (get_cached now c2 tok2).1 = none →
      fallbackConfigured w2 = true → (w2.primary tok2).status = 404 →
      (w2.fallback tok2).status = 404 →
      (processToken w2 now c2 tok2).result = .notFound) ∧
    (TokenResult.notFoundOrUpstreamError ≠ TokenResult.notFound) := by
  refine ⟨?_, ?_, by simp⟩
  · rw [processToken_miss w now c tok hv hmiss,
      missStep_fallthrough w now _ tok (primaryPhase_none_of_status w now _ tok hp),
      fallbackPhase_not_configured w now _ tok hnc]
  · intro hv2 hm2 hc2 hp2 hf2
    rw [processToken_miss w2 now c2 tok2 hv2 hm2,
      missStep_fallthrough w2 now _ tok2
        (primaryPhase_none_of_status w2 now _ tok2 (by simp [hp2])),
      fallbackPhase_404 w2 now _ tok2 hc2 hf2]

/-- C6 witness: primary 404 with no credential gives the ambiguous outcome;
primary 404 plus configured fallback that also 404s gives clean NotFound. -/
theorem C6_ambiguous_outcome_witness :
    (processToken ⟨fun _ => ⟨404, .null⟩, fun _ => ⟨404, .null⟩, none⟩ 0 [] "457173").result =
      .notFoundOrUpstreamError ∧
    (processToken ⟨fun _ => ⟨404, .null⟩, fun _ => ⟨404, .null⟩, some "k"⟩ 0 [] "457173").result =
      .notFound := by
  have h := C6_ambiguous_outcome ⟨fun _ => ⟨404, .null⟩, fun _ => ⟨404, .null⟩, none⟩
    ⟨fun _ => ⟨404, .null⟩, fun _ => ⟨404, .null⟩, some "k"⟩ 0 [] [] "457173" "457173"
    (by decide) rfl rfl (by decide)
  exact ⟨h.1, h.2.1 (by decide) rfl (by decide) rfl rfl⟩

/-- C10: a primary HTTP 200 whose JSON body is empty or null is never
Resolved from the primary: the orchestrator proceeds to the fallback
provider when one is configured (clean NotFound when it 404s) and to the
ambiguous not-found-or-upstream-error outcome when none is, and the primary
response is not written to the cache. -/
theorem C10_falsy_200 (w : World) (now : Int) (c : Cache) (tok : String)
    (hv : BIN_RE_match tok = true)
    (hmiss : (get_cached now c tok).1 = none)
    (hs : (w.primary tok).status = 200)
    (hb : truthy (w.primary tok).body = false) :
    (∀ v, (processToken w now c tok).result ≠ .resolved v "binlist") ∧
    (fallbackConfigured w = true →
      (processToken w now c tok).calls = ["binlist", "api_ninjas"]) ∧
    (fallbackConfigured w = false →
      processToken w now c tok =
        ⟨.notFoundOrUpstreamError, (get_cached now c tok).2, ["binlist"]⟩) ∧
    (fallbackConfigured w = true → (w.fallback tok).status = 404 →
      processToken w now c tok =
        ⟨.notFound, (get_cached now c tok).2, ["binlist", "api_ninjas"]⟩) := by
  have hmr := processToken_miss w now c tok hv hmiss
  have hpp := primaryPhase_none_of_falsy w now (get_cached now c tok).2 tok hs hb
  have hms := missStep_fallthrough w now (get_cached now c tok).2 tok hpp
  refine ⟨?_, ?_, ?_, ?_⟩
  · intro v
    rw [hmr, hms]
    by_cases hc : fallbackConfigured w = true
    · cases hl : lookup_bin_apininjas (w.fallback tok) with
      | ok raw2 =>
          by_cases htr : truthy raw2 = true
          · cases hn : normalize_binlist_response raw2 with
            | ok v2 => rw [fallbackPhase_found w now _ tok raw2 v2 hl htr hn hc]; simp
            | error e => rw [fallbackPhase_normerr w now _ tok raw2 e hc hl htr hn]; simp
          · rw [Bool.not_eq_true] at htr
            rw [fallbackPhase_falsy w now _ tok raw2 hc hl htr]
            simp
      | error e =>
          cases e with
          | runtimeError m => rw [fallbackPhase_rate w now _ tok m hc hl]; simp
          | otherError m => rw [fallbackPhase_err w now _ tok m hc hl]; simp
    · rw [Bool.not_eq_true] at hc
      rw [fallbackPhase_not_configured w now _ tok hc]
      simp
  · intro hc
    rw [hmr, hms, fallbackPhase_calls w now _ tok hc]
  · intro hc
    rw [hmr, hms, fallbackPhase_not_configured w now _ tok hc]
  · intro hc h4
    rw [hmr, hms, fallbackPhase_404 w now _ tok hc h4]

/-- C10 witness: primary answers 200 with the empty object; the configured
fallback answers 404; the outcome is clean NotFound with both providers
called and nothing cached. -/
theorem C10_falsy_200_witness :
    processToken ⟨fun _ => ⟨200, .obj []⟩, fun _ => ⟨404, .null⟩, some "k"⟩ 0 [] "457173" =
      ⟨.notFound, [], ["binlist", "api_ninjas"]⟩ :=
  (C10_falsy_200 ⟨fun _ => ⟨200, .obj []⟩, fun _ => ⟨404, .null⟩, some "k"⟩ 0 [] "457173"
    (by decide) rfl rfl rfl).2.2.2 (by decide) rfl

/-- C1 (counterexample): "a Found from either provider is normalized, written
to the cache, and returned as Resolved" fails — the primary provider returns
Found (HTTP 200, here with a null JSON body), yet the token is not Resolved,
nothing is cached, and the outcome is the ambiguous
not-found-or-upstream-error kind. -/
theorem C1_counterexample :
    (HttpResp.mk 200 JsonVal.null).status = 200 ∧
    lookup_bin_binlist ⟨200, .null⟩ = .ok .null ∧
    processToken ⟨fun _ => ⟨200, .null⟩, fun _ => ⟨404, .null⟩, none⟩ 0 [] "457173" =
      ⟨.notFoundOrUpstreamError, [], ["binlist"]⟩ := by
  refine ⟨rfl, rfl, ?_⟩
  decide

/-- C1 (amended): for every validated token that misses the cache the primary
provider is invoked first; if the primary outcome is NotFound (404),
RateLimited (429) or Error (other 4xx/5xx) and a fallback credential is
configured, the fallback provider is invoked as well; a Found from either
provider whose payload is non-empty (truthy) and normalizes without error is
normalized, written to the cache, and returned as Resolved with that
provider's tag; a NotFound outcome is never written to the cache. -/
theorem C1_orchestration (w : World) (now : Int) (c : Cache) (tok : String)
    (hv : BIN_RE_match tok = true)
    (hmiss : (get_cached now c tok).1 = none) :
    ((processToken w now c tok).calls.head? = some "binlist") ∧
    (((w.primary tok).status = 404 ∨ (w.primary tok).status = 429 ∨
        (400 ≤ (w.primary tok).status ∧ (w.primary tok).status < 600)) →
      fallbackConfigured w = true →
      (processToken w now c tok).calls = ["binlist", "api_ninjas"]) ∧
    (∀ raw v, lookup_bin_binlist (w.primary tok) = .ok raw → truthy raw = true →
      normalize_binlist_response raw = .ok v →
      processToken w now c tok =
        ⟨.resolved v "binlist", set_cache now (get_cached now c tok).2 tok v, ["binlist"]⟩) ∧
    (∀ raw2 v2, (w.primary tok).status ≠ 200 → fallbackConfigured w = true →
      lookup_bin_apininjas (w.fallback tok) = .ok raw2 → truthy raw2 = true →
      normalize_binlist_response raw2 = .ok v2 →
      processToken w now c tok =
        ⟨.resolved v2 "api_ninjas", set_cache now (get_cached now c tok).2 tok v2,
          ["binlist", "api_ninjas"]⟩) ∧
    ((w.primary tok).status = 404 → fallbackConfigured w = false →
      (processToken w now c tok).cache = (get_cached now c tok).2) ∧
    ((w.primary tok).status = 404 → fallbackConfigured w = true →
      (w.fallback tok).status = 404 →
      (processToken w now c tok).cache = (get_cached now c tok).2) := by
  have hmr := processToken_miss w now c tok hv hmiss
  refine ⟨?_, ?_, ?_, ?_, ?_, ?_⟩
  · rw [hmr]
    cases hp : primaryPhase w now (get_cached now c tok).2 tok with
    | some rc =>
        rw [missStep_found w now _ tok rc hp]
        rfl
    | none =>
        rw [missStep_fallthrough w now _ tok hp]
        rfl
  · intro hst hc
    have hp200 : (w.primary tok).status ≠ 200 := by
      rcases hst with h | h | h <;> omega
    rw [hmr, missStep_fallthrough w now _ tok (primaryPhase_none_of_status w now _ tok hp200)]
    simp [fallbackPhase_calls w now _ tok hc]
  · intro raw v hl htr hn
    rw [hmr, missStep_found w now _ tok _ (primaryPhase_found w now _ tok raw v hl htr hn)]
  · intro raw2 v2 hp200 hc hl htr hn
    rw [hmr, missStep_fallthrough w now _ tok (primaryPhase_none_of_status w now _ tok hp200),
      fallbackPhase_found w now _ tok raw2 v2 hl htr hn hc]
  · intro h4 hc
    have hp200 : (w.primary tok).status ≠ 200 := by omega
    rw [hmr, missStep_fallthrough w now _ tok (primaryPhase_none_of_status w now _ tok hp200),
      fallbackPhase_not_configured w now _ tok hc]
  · intro h4 hc hf4
    have hp200 : (w.primary tok).status ≠ 200 := by omega
    rw [hmr, missStep_fallthrough w now _ tok (primaryPhase_none_of_status w now _ tok hp200),
      fallbackPhase_404 w now _ tok hc hf4]

/-- C1 witness: a primary Found with non-empty payload is resolved and
cached; a primary 429 with configured fallback invokes both providers. -/
theorem C1_orchestration_witness :
    processToken ⟨fun _ => ⟨200, .obj [("scheme", .str "visa")]⟩, fun _ => ⟨404, .null⟩, none⟩
        5 [] "457173" =
      ⟨.resolved (some ⟨.str "visa", .str "visa", .null, .null, .null, .null, .null, .null,
          none⟩) "binlist",
        [("457173", 5, some ⟨.str "visa", .str "visa", .null, .null, .null, .null, .null,
          .null, none⟩)], ["binlist"]⟩ ∧
    (processToken ⟨fun _ => ⟨429, .null⟩, fun _ => ⟨404, .null⟩, some "k"⟩ 0 [] "457173").calls =
      ["binlist", "api_ninjas"] := by
  have h1 := C1_orchestration ⟨fun _ => ⟨200, .obj [("scheme", .str "visa")]⟩,
    fun _ => ⟨404, .null⟩, none⟩ 5 [] "457173" (by decide) rfl
  have h2 := C1_orchestration ⟨fun _ => ⟨429, .null⟩, fun _ => ⟨404, .null⟩, some "k"⟩
    0 [] "457173" (by decide) rfl
  constructor
  · exact h1.2.2.1 (.obj [("scheme", .str "visa")])
      (some ⟨.str "visa", .str "visa", .null, .null, .null, .null, .null, .null, none⟩)
      rfl rfl (by decide)
  · exact h2.2.1 (Or.inr (Or.inl rfl)) (by decide)

/-- C4: if the first lookup of a valid token resolves from either provider,
then a repeated lookup within the TTL — under any provider behavior — returns
the identical record as a Cached outcome, performs no provider calls, and
leaves the cache unchanged (so every further lookup within the TTL behaves
the same way). -/
theorem C4_cached_repeat (w w2 : World) (t0 t1 : Int) (c : Cache) (tok : String)
    (v : Option IssuerOut) (src : String)
    (h : (processToken w t0 c tok).result = .resolved v src)
    (ht : t1 - t0 ≤ CACHE_TTL) :
    ∃ rec, v = some rec ∧
      processToken w2 t1 (processToken w t0 c tok).cache tok =
        ⟨.cachedHit rec, (processToken w t0 c tok).cache, []⟩ := by
  by_cases hv : BIN_RE_match tok = true
  · cases hh : (get_cached t0 c tok).1 with
    | some d =>
        rw [processToken_hit w t0 c tok hv d hh] at h
        exact absurd h (by simp)
    | none =>
        have hmr := processToken_miss w t0 c tok hv hh
        rw [hmr] at h ⊢
        cases hp : primaryPhase w t0 (get_cached t0 c tok).2 tok with
        | some rc =>
            obtain ⟨raw, vv, hl, htr, hn, hrc⟩ := primaryPhase_some_inv w t0 _ tok rc hp
            rw [missStep_found w t0 _ tok rc hp] at h ⊢
            rw [hrc] at h ⊢
            simp only [TokenResult.resolved.injEq] at h
            obtain ⟨hvv, hsrc⟩ := h
            obtain ⟨rec, hrec⟩ := normalize_truthy_some raw vv htr hn
            rw [← hvv, hrec]
            refine ⟨rec, rfl, ?_⟩
            exact processToken_after_set w2 t0 t1 _ tok rec hv ht
        | none =>
            rw [missStep_fallthrough w t0 _ tok hp] at h ⊢
            by_cases hc : fallbackConfigured w = true
            · cases hl : lookup_bin_apininjas (w.fallback tok) with
              | error e =>
                  cases e with
                  | runtimeError m =>
                      rw [fallbackPhase_rate w t0 _ tok m hc hl] at h
                      exact absurd h (by simp)
                  | otherError m =>
                      rw [fallbackPhase_err w t0 _ tok m hc hl] at h
                      exact absurd h (by simp)
              | ok raw2 =>
                  by_cases htr : truthy raw2 = true
                  · cases hn : normalize_binlist_response raw2 with
                    | error e =>
                        rw [fallbackPhase_normerr w t0 _ tok raw2 e hc hl htr hn] at h
                        exact absurd h (by simp)
                    | ok v2 =>
                        rw [fallbackPhase_found w t0 _ tok raw2 v2 hl htr hn hc] at h ⊢
                        simp only [TokenResult.resolved.injEq] at h
                        obtain ⟨hvv, hsrc⟩ := h
                        obtain ⟨rec, hrec⟩ := normalize_truthy_some raw2 v2 htr hn
                        rw [← hvv, hrec]
                        refine ⟨rec, rfl, ?_⟩
                        exact processToken_after_set w2 t0 t1 _ tok rec hv ht
                  · rw [Bool.not_eq_true] at htr
                    rw [fallbackPhase_falsy w t0 _ tok raw2 hc hl htr] at h
                    exact absurd h (by simp)
            · rw [Bool.not_eq_true] at hc
              rw [fallbackPhase_not_configured w t0 _ tok hc] at h
              exact absurd h (by simp)
  · rw [Bool.not_eq_true] at hv
    rw [processToken_invalid w t0 c tok hv] at h
    exact absurd h (by simp)

/-- C4 witness: a first lookup at time 0 resolves `457173` from the primary;
a second lookup at time 86400 (the TTL boundary) against a different world
is a cache hit with the identical record, no calls, cache unchanged. -/
theorem C4_cached_repeat_witness :
    ∃ rec, (some (⟨.str "visa", .str "visa", .null, .null, .null, .null, .null, .null,
        none⟩ : IssuerOut) : Option IssuerOut) = some rec ∧
      processToken ⟨fun _ => ⟨500, .null⟩, fun _ => ⟨500, .null⟩, none⟩ 86400
          (processToken ⟨fun _ => ⟨200, .obj [("scheme", .str "visa")]⟩,
            fun _ => ⟨404, .null⟩, none⟩ 0 [] "457173").cache "457173" =
        ⟨.cachedHit rec,
          (processToken ⟨fun _ => ⟨200, .obj [("scheme", .str "visa")]⟩,
            fun _ => ⟨404, .null⟩, none⟩ 0 [] "457173").cache, []⟩ :=
  C4_cached_repeat ⟨fun _ => ⟨200, .obj [("scheme", .str "visa")]⟩, fun _ => ⟨404, .null⟩, none⟩
    ⟨fun _ => ⟨500, .null⟩, fun _ => ⟨500, .null⟩, none⟩ 0 86400 [] "457173"
    (some ⟨.str "visa", .str "visa", .null, .null, .null, .null, .null, .null, none⟩)
    "binlist" (by decide) (by decide)

/-- C8: submitting more than 100 distinct tokens (after flattening, stripping
and deduplication) rejects the whole request with a single request-level
error (HTTP 400, "too_many_bins") before any per-token processing: the
result carries no per-token entries, the cache is untouched and no provider
is called. -/
theorem C8_too_many_bins (w : World) (now : Int) (c : Cache) (binsParam : List String)
    (h : (dedup (flattenBins binsParam)).length > 100) :
    root w now c binsParam = ⟨.errorResp "too_many_bins", 400, c, []⟩ := by
  have hne : binsParam ≠ [] := by
    intro he
    rw [he] at h
    simp [dedup, dedupAux, flattenBins] at h
  unfold root
  rw [if_neg hne, if_pos h]

/-- A family of 101 pairwise-distinct 6-digit tokens. -/
def tok101 (i : Nat) : String :=
  ⟨['1', '0', '0', Char.ofNat (48 + i / 100), Char.ofNat (48 + (i / 10) % 10),
    Char.ofNat (48 + i % 10)]⟩

set_option maxRecDepth 8000 in
/-- C8 witness: 101 distinct tokens are rejected wholesale. -/
theorem C8_too_many_bins_witness :
    root ⟨fun _ => ⟨404, .null⟩, fun _ => ⟨404, .null⟩, none⟩ 0 []
        ((List.range 101).map tok101) =
      ⟨.errorResp "too_many_bins", 400, [], []⟩ :=
  C8_too_many_bins ⟨fun _ => ⟨404, .null⟩, fun _ => ⟨404, .null⟩, none⟩ 0 []
    ((List.range 101).map tok101) (by decide)

lemma lookupEntry_eq_none_iff (c : Cache) (k : String) :
    lookupEntry c k = none ↔ ∀ e ∈ c, e.1 ≠ k := by
  unfold lookupEntry
  cases hf : List.find? (fun e => e.1 == k) c with
  | none =>
      rw [List.find?_eq_none] at hf
      exact iff_of_true rfl (fun e he => by simpa using hf e he)
  | some e =>
      refine iff_of_false (by simp) ?_
      intro hall
      have h1 := List.find?_some hf
      have h2 := List.mem_of_find?_eq_some hf
      exact hall e h2 (by simpa using h1)

lemma lookupEntry_eraseKey_none (c : Cache) (k k2 : String)
    (h : lookupEntry c k = none) :
    lookupEntry (eraseKey c k2) k = none := by
  rw [lookupEntry_eq_none_iff] at h ⊢
  intro e he
  exact h e (List.mem_of_mem_filter he)

lemma lookupEntry_get_cached_none (now : Int) (c : Cache) (tok k : String)
    (h : lookupEntry c k = none) :
    lookupEntry (get_cached now c tok).2 k = none := by
  unfold get_cached
  cases hf : lookupEntry c tok with
  | none => exact h
  | some e =>
      obtain ⟨ts, data⟩ := e
      show lookupEntry
        (if now - ts > CACHE_TTL then (none, eraseKey c tok) else (data, c)).2 k = none
      by_cases hexp : now - ts > CACHE_TTL
      · rw [if_pos hexp]
        exact lookupEntry_eraseKey_none c k tok h
      · rw [if_neg hexp]
        exact h

lemma lookupEntry_set_cache_other (now : Int) (c : Cache) (tok k : String)
    (v : Option IssuerOut) (hne : k ≠ tok) (h : lookupEntry c k = none) :
    lookupEntry (set_cache now c tok v) k = none := by
  unfold set_cache
  rw [lookupEntry_eq_none_iff] at h ⊢
  intro e he
  rcases List.mem_cons.mp he with he1 | he2
  · subst he1
    exact fun hh => hne hh.symm
  · exact h e (List.mem_of_mem_filter he2)

lemma fallbackPhase_cache (w : World) (now : Int) (c1 : Cache) (tok : String) :
    (fallbackPhase w now c1 tok).cache = c1 ∨
      ∃ v2, (fallbackPhase w now c1 tok).cache = set_cache now c1 tok v2 := by
  unfold fallbackPhase
  by_cases hc : fallbackConfigured w = true
  · rw [if_pos hc]
    cases hl : lookup_bin_apininjas (w.fallback tok) with
    | ok raw2 =>
        by_cases htr : truthy raw2 = true
        · cases hn : normalize_binlist_response raw2 with
          | ok v2 => exact Or.inr ⟨v2, by simp [htr, hn]⟩
          | error e => exact Or.inl (by simp [htr, hn])
        · rw [Bool.not_eq_true] at htr
          exact Or.inl (by simp [htr])
    | error e => cases e <;> exact Or.inl rfl
  · rw [if_neg hc]
    exact Or.inl rfl

lemma processToken_cache_keys (w : World) (now : Int) (c : Cache) (tok k : String)
    (hk : lookupEntry c k = none) (hkv : BIN_RE_match k = false) :
    lookupEntry (processToken w now c tok).cache k = none := by
  by_cases hv : BIN_RE_match tok = true
  · have hne : k ≠ tok := by
      intro he
      rw [he, hv] at hkv
      cases hkv
    have hk1 : lookupEntry (get_cached now c tok).2 k = none :=
      lookupEntry_get_cached_none now c tok k hk
    cases hh : (get_cached now c tok).1 with
    | some d =>
        rw [processToken_hit w now c tok hv d hh]
        exact hk1
    | none =>
        rw [processToken_miss w now c tok hv hh]
        cases hp : primaryPhase w now (get_cached now c tok).2 tok with
        | some rc =>
            obtain ⟨raw, vv, _, _, _, hrc⟩ := primaryPhase_some_inv w now _ tok rc hp
            rw [missStep_found w now _ tok rc hp, hrc]
            exact lookupEntry_set_cache_other now _ tok k vv hne hk1
        | none =>
            rw [missStep_fallthrough w now _ tok hp]
            rcases fallbackPhase_cache w now (get_cached now c tok).2 tok with hcc | ⟨v2, hcc⟩
            · rw [hcc]
              exact hk1
            · rw [hcc]
              exact lookupEntry_set_cache_other now _ tok k v2 hne hk1
  · rw [Bool.not_eq_true] at hv
    rw [processToken_invalid w now c tok hv]
    exact hk

lemma processBins_cache_keys (w : World) (now : Int) (ts : List String) :
    ∀ (c : Cache) (k : String), lookupEntry c k = none → BIN_RE_match k = false →
      lookupEntry (processBins w now ts c).2.1 k = none := by
  induction ts with
  | nil =>
      intro c k hk _
      exact hk
  | cons t rest ih =>
      intro c k hk hkv
      simp only [processBins]
      exact ih _ k (processToken_cache_keys w now c t k hk hkv) hkv

/-- C9: every key the request handler ever stores in the cache has passed the
validator — after processing any request against any initial cache, any key
present in the resulting cache either was present beforehand or matches the
6-8 digit pattern; in particular no invalid token ever appears as a cache
key in any state reachable from the empty cache. -/
theorem C9_cache_keys_validated (w : World) (now : Int) (c : Cache)
    (binsParam : List String) (k : String) (e : Int × Option IssuerOut)
    (h : lookupEntry (root w now c binsParam).cache k = some e) :
    lookupEntry c k ≠ none ∨ BIN_RE_match k = true := by
  by_cases hk : lookupEntry c k = none
  · right
    by_cases hkv : BIN_RE_match k = true
    · exact hkv
    · rw [Bool.not_eq_true] at hkv
      exfalso
      unfold root at h
      by_cases hbp : binsParam = []
      · rw [if_pos hbp] at h
        rw [hk] at h
        cases h
      · rw [if_neg hbp] at h
        by_cases hlen : (dedup (flattenBins binsParam)).length > 100
        · rw [if_pos hlen] at h
          rw [hk] at h
          cases h
        · rw [if_neg hlen] at h
          have hnone := processBins_cache_keys w now (dedup (flattenBins binsParam)) c k hk hkv
          rw [hnone] at h
          cases h
  · left
    exact hk

/-- C9 witness: after resolving `457173` from the empty cache, the stored key
passes the validator. -/
theorem C9_cache_keys_validated_witness :
    lookupEntry ([] : Cache) "457173" ≠ none ∨ BIN_RE_match "457173" = true :=
  C9_cache_keys_validated
    ⟨fun _ => ⟨200, .obj [("scheme", .str "visa")]⟩, fun _ => ⟨404, .null⟩, none⟩ 0 []
    ["457173"] "457173"
    (0, some ⟨.str "visa", .str "visa", .null, .null, .null, .null, .null, .null, none⟩)
    (by decide)
